import Mathlib

/-!
Shallow embedding of the contentloop-ai backend (src/backend/main.py,
src/backend/conversation.py, src/backend/optimization_agent.py) and proofs
about its session store, revision state machine, sweep and optimization
fallback behavior.

The text-generation collaborator (llm.invoke) is modelled as an oracle of
type Gen passed to every operation; it receives the fields that
content_generator in conversation.py embeds into its prompt (topic,
content_length, writing_style, and the latest feedback item or none) and
either returns the generated draft text or fails with an exception
message, exactly the two outcomes the source code distinguishes.

Timestamps are modelled as abstract integers; datetime subtraction and
timedelta comparison in the source become integer subtraction and
comparison.
-/

namespace ContentLoop

/-- The text-generation collaborator: topic, content_length, writing_style,
latest feedback (none on the very first generation, matching the
"No feedback yet" sentinel path of content_generator), returning either the
draft text or the exception message it raised. -/
abbrev Gen : Type := String → String → String → Option String → Except String String

/-- The State TypedDict of conversation.py: topic, content_length,
writing_style, accumulated generated posts, accumulated human feedback, and
the should_continue routing flag. The two Annotated add_messages lists are
modelled as plain lists of the message texts, since each node update appends
fresh messages. -/
structure GraphState where
  topic : String
  content_length : String
  writing_style : String
  generated_post : List String
  human_feedback : List String
  should_continue : Bool
deriving DecidableEq, Repr

/-- Python str.lower, applied characterwise to the character list of the
string (on the ascii text involved here this is exactly what the source
compares). -/
def pyLower (s : String) : String := String.mk (s.data.map Char.toLower)

/-- The content_generator node of conversation.py: reads the latest feedback
item, calls the llm, and appends the generated draft to generated_post via
add_messages. The feedback list itself is returned unchanged. A collaborator
failure propagates. -/
def content_generator (gen : Gen) (s : GraphState) : Except String GraphState :=
  match gen s.topic s.content_length s.writing_style s.human_feedback.getLast? with
  | .error e => .error e
  | .ok d => .ok { s with generated_post := s.generated_post ++ [d] }

/-- The feedback_collector node of conversation.py resumed with feedback fb:
appends fb to human_feedback and sets should_continue to the result of the
case-insensitive comparison of fb with the literal string done. -/
def feedback_collector (fb : String) (s : GraphState) : GraphState :=
  { s with human_feedback := s.human_feedback ++ [fb],
           should_continue := pyLower fb != "done" }

/-- The content_finalizer node of conversation.py: returns the state fields
unchanged. -/
def content_finalizer (s : GraphState) : GraphState := s

/-- The per-session langgraph thread held by the MemorySaver checkpointer,
reachable through the thread_config stored in active_sessions: either the
graph is parked at the interrupt inside feedback_collector (a live,
resumable token), or the last committed checkpoint is the one written after
feedback_collector ran but before the pending content_generator super-step
completed (the state left behind when generation raised during a resume), or
the graph ran to its finish point. -/
inductive ThreadState where
  | suspended (s : GraphState)
  | pendingGen (s : GraphState)
  | finished (s : GraphState)
deriving DecidableEq, Repr

/-- A resumption token is live when the thread can still be resumed to
continue the workflow; a finished thread cannot. -/
def hasLiveToken : ThreadState → Bool
  | .suspended _ => true
  | .pendingGen _ => true
  | .finished _ => false

/-- Outcome of streaming Command resume into a thread: the graph reached the
next interrupt, or it ran to the finish point, or content_generator raised
(carrying the checkpoint that remains committed and the exception text). -/
inductive ResumeResult where
  | interrupted (s : GraphState)
  | ended (s : GraphState)
  | genFailed (persisted : GraphState) (e : String)
deriving DecidableEq, Repr

/-- Streaming conversation_app.stream with Command resume fb on a thread.
For a thread parked at the interrupt, the interrupted feedback_collector
node re-executes from its start with fb as the interrupt value and its
update is checkpointed; then the conditional edge routes on should_continue:
to content_generator (whose failure leaves the feedback_collector checkpoint
as the last committed one) and on success back to the interrupt, or to
content_finalizer and the finish point. For a thread whose last checkpoint
precedes a pending content_generator step, execution continues with that
step. Resuming an already finished thread runs no further node. -/
def resumeThread (gen : Gen) (fb : String) : ThreadState → ResumeResult
  | .suspended gs =>
      let gs1 := feedback_collector fb gs
      if gs1.should_continue then
        match content_generator gen gs1 with
        | .ok gs2 => .interrupted gs2
        | .error e => .genFailed gs1 e
      else .ended (content_finalizer gs1)
  | .pendingGen gs =>
      match content_generator gen gs with
      | .ok gs2 => .interrupted gs2
      | .error e => .genFailed gs e
  | .finished gs => .ended gs

/-- One entry of the active_sessions dictionary in main.py: the thread
(reached through the stored thread_config), the current_post, the status
string, and the two timestamps. The stored initial state snapshot is
omitted because no code path ever reads it back. last_activity is optional
because cleanup_expired_sessions reads it with a get that falls back to
created_at. -/
structure SessionData where
  thread : ThreadState
  current_post : String
  status : String
  created_at : Int
  last_activity : Option Int
deriving DecidableEq, Repr

/-- The active_sessions dictionary, as an insertion-ordered association
list from session id to session data, matching Python dict semantics. -/
abbrev Store : Type := List (String × SessionData)

/-- Python dict assignment: replace the entry when the key is present,
append it otherwise. -/
def storeSet (st : Store) (sid : String) (sd : SessionData) : Store :=
  if (List.lookup sid st).isSome then
    st.map (fun p => if p.1 == sid then (sid, sd) else p)
  else st ++ [(sid, sd)]

/-- An HTTPException: status code and detail string. -/
structure HttpError where
  status : Int
  detail : String
deriving DecidableEq, Repr

/-- The start endpoint of main.py, with the uuid passed in as session_id and
the current wall clock passed in as now: run the graph from the initial
state to the first interrupt, record the session with status
waiting_feedback and both timestamps, and return id, draft and status. A
generation failure is caught and surfaced as a 500. -/
def start_ai_agent_session (gen : Gen) (now : Int) (st : Store)
    (session_id topic content_length writing_style : String) :
    Store × Except HttpError (String × String × String) :=
  let s0 : GraphState :=
    { topic := topic, content_length := content_length,
      writing_style := writing_style, generated_post := [],
      human_feedback := [], should_continue := true }
  match content_generator gen s0 with
  | .error e => (st, .error ⟨500, "Error starting AI agent session: " ++ e⟩)
  | .ok s1 =>
      let d := s1.generated_post.getLastD ""
      (storeSet st session_id
        { thread := .suspended s1, current_post := d,
          status := "waiting_feedback", created_at := now,
          last_activity := some now },
       .ok (session_id, d, "waiting_feedback"))

/-- The feedback endpoint of main.py. An unknown session id raises
HTTPException 404 inside the try block, which the except Exception handler
catches and re-raises as a 500 whose detail wraps the str of the 404.
Feedback whose lowercase form equals done short-circuits: it only sets the
status field to completed and returns the stored draft, without touching
the thread, the draft or last_activity. Any other feedback resumes the
thread; on reaching the next interrupt the draft extracted from the
content_generator chunk is stored together with a refreshed last_activity
(status is not written), on generation failure nothing in the record is
written except that the thread checkpoint has already advanced past the
feedback append, and the exception is surfaced as a 500. If the stream ends
without an interrupt no content_generator chunk was seen, so the empty
string is stored as the draft. -/
def provide_ai_agent_feedback (gen : Gen) (now : Int) (st : Store)
    (session_id feedback : String) :
    Store × Except HttpError (String × String) :=
  match List.lookup session_id st with
  | none => (st, .error ⟨500, "Error processing feedback: 404: Session not found"⟩)
  | some sd =>
    if pyLower feedback == "done" then
      (storeSet st session_id { sd with status := "completed" },
       .ok (sd.current_post, "completed"))
    else
      match resumeThread gen feedback sd.thread with
      | .interrupted gs2 =>
          let d := gs2.generated_post.getLastD ""
          (storeSet st session_id
            { sd with thread := .suspended gs2, current_post := d,
                      last_activity := some now },
           .ok (d, "waiting_feedback"))
      | .ended gs2 =>
          (storeSet st session_id
            { sd with thread := .finished gs2, current_post := "",
                      last_activity := some now },
           .ok ("", "waiting_feedback"))
      | .genFailed gs1 e =>
          (storeSet st session_id { sd with thread := .pendingGen gs1 },
           .error ⟨500, "Error processing feedback: " ++ e⟩)

/-- The delete endpoint of main.py: remove the entry when present, report
whether it was. -/
def delete_ai_agent_session (st : Store) (sid : String) : Store × Bool :=
  if (List.lookup sid st).isSome then
    (st.filter (fun p => !(p.1 == sid)), true)
  else (st, false)

/-- The expiry test of cleanup_expired_sessions and the stats endpoint:
the age of a session, measured from last_activity with created_at as the
fallback, strictly exceeds the timeout. -/
def expired (now timeout : Int) (sd : SessionData) : Bool :=
  now - (sd.last_activity.getD sd.created_at) > timeout

/-- cleanup_expired_sessions of main.py: collect the ids of expired
sessions while iterating the store, then delete each collected id, and
return how many were collected. -/
def cleanup_expired_sessions (now timeout : Int) (st : Store) : Store × Nat :=
  let expiredIds := (st.filter (fun p => expired now timeout p.2)).map Prod.fst
  (st.filter (fun p => !(expiredIds.contains p.1)), expiredIds.length)

/-- The feedback history persisted for a session, i.e. the human_feedback
list held by the last committed checkpoint of its thread. -/
def threadHistory : ThreadState → List String
  | .suspended s => s.human_feedback
  | .pendingGen s => s.human_feedback
  | .finished s => s.human_feedback

/-- The persisted feedback history of a stored session, if the id is
present. -/
def sessionHistory (st : Store) (sid : String) : Option (List String) :=
  (List.lookup sid st).map (fun sd => threadHistory sd.thread)

/-- The stored draft of a session, if the id is present. -/
def sessionDraft (st : Store) (sid : String) : Option String :=
  (List.lookup sid st).map (fun sd => sd.current_post)

/-- The stored status of a session, if the id is present. -/
def sessionStatus (st : Store) (sid : String) : Option String :=
  (List.lookup sid st).map (fun sd => sd.status)

/-- Stores reachable from the empty store through the mutating session
endpoints: start, feedback, delete, and the eviction sweep, all sharing one
generation collaborator. -/
inductive Reachable (gen : Gen) : Store → Prop where
  | empty : Reachable gen []
  | create (now : Int) (sid topic len sty : String) {st : Store} :
      Reachable gen st →
      Reachable gen (start_ai_agent_session gen now st sid topic len sty).1
  | feedback (now : Int) (sid fb : String) {st : Store} :
      Reachable gen st →
      Reachable gen (provide_ai_agent_feedback gen now st sid fb).1
  | deleteSession (sid : String) {st : Store} :
      Reachable gen st →
      Reachable gen (delete_ai_agent_session st sid).1
  | sweep (now timeout : Int) {st : Store} :
      Reachable gen st →
      Reachable gen (cleanup_expired_sessions now timeout st).1

/-! Embedding of src/backend/optimization_agent.py. The llm.invoke call is
again an oracle: it either returns the response text or raises. The
json.loads call on the extracted brace-delimited substring is an external
library call, modelled as an oracle jsonParse returning the structured
record on success and none when it raises. -/

/-- The flattened shape of the structured optimization record: the fields
of the JSON object that both the prompt format and the fallback of
optimization_agent.py produce. -/
structure OptimizationData where
  hashtags_suggested : List String
  hashtags_reasoning : String
  cta_current : String
  cta_improved : String
  cta_alternatives : List String
  readability_score : String
  paragraph_count : Nat
  hook_effectiveness : String
  structure_suggestions : List String
  predicted_engagement : String
  engagement_triggers : List String
  engagement_improvements : List String
  overall_score : Nat
  key_recommendations : List String
deriving DecidableEq, Repr

/-- The index of the last occurrence of a character in a list, if any. -/
def lastIdxOf (c : Char) (cs : List Char) : Option Nat :=
  match cs.reverse.findIdx? (fun x => x == c) with
  | none => none
  | some k => some (cs.length - 1 - k)

/-- The greedy dotall regex search for an opening brace followed by
anything followed by a closing brace, used by optimize_content: it matches
from the first opening brace to the last closing brace of the whole text,
provided that closing brace comes strictly later. -/
def extractBrace (s : String) : Option String :=
  match s.data.findIdx? (fun c => c == Char.ofNat 123), lastIdxOf (Char.ofNat 125) s.data with
  | some i, some j =>
      if i < j then some (String.mk ((s.data.drop i).take (j + 1 - i))) else none
  | _, _ => none

/-- Python str.split with no argument: split on whitespace runs, dropping
empty pieces. -/
def pySplitWs (s : String) : List String :=
  (s.split (fun c => c.isWhitespace)).filter (fun w => w != "")

/-- Python str.capitalize: uppercase the first character, lowercase the
rest. -/
def pyCapitalize (w : String) : String :=
  match w.data with
  | [] => ""
  | c :: rest => String.mk (c.toUpper :: rest.map Char.toLower)

/-- The hashtag list built by the fallback of optimization_agent.py: the
first three whitespace-separated words of the lowercased topic (or the two
generic words when the topic is empty), each prefixed with a hash after
removing spaces and capitalizing, followed by the two fixed tags. -/
def fallbackHashtags (topic : String) : List String :=
  let words := if topic != "" then pySplitWs (pyLower topic)
               else ["content", "professional"]
  ((words.take 3).map (fun w =>
      String.mk [Char.ofNat 35] ++ pyCapitalize (w.replace " " ""))) ++
    [String.mk [Char.ofNat 35] ++ "Content",
     String.mk [Char.ofNat 35] ++ "ProfessionalGrowth"]

/-- The _create_fallback_optimization method: the deterministic locally
computed report, with the paragraph count obtained by splitting the content
on literal blank lines and the fixed default overall score of 75. -/
def create_fallback_optimization (content topic : String) : OptimizationData :=
  { hashtags_suggested := (fallbackHashtags topic).take 5
    hashtags_reasoning := "Basic hashtag suggestions based on content topic"
    cta_current := "None detected"
    cta_improved := "What are your thoughts on this topic? Share your experience below!"
    cta_alternatives :=
      ["How has this impacted your professional journey?",
       "What strategies have worked for you?",
       "I\x27d love to hear your perspective in the comments!"]
    readability_score := "Good"
    paragraph_count := (content.splitOn "\n\n").length
    hook_effectiveness := "Moderate"
    structure_suggestions :=
      ["Consider starting with a compelling question or statistic",
       "Use bullet points or numbered lists for better readability"]
    predicted_engagement := "Medium"
    engagement_triggers := ["Personal experience", "Industry insights", "Call to action"]
    engagement_improvements :=
      ["Add a personal anecdote or example",
       "Include a thought-provoking question"]
    overall_score := 75
    key_recommendations :=
      ["Enhance with relevant hashtags",
       "Strengthen the call-to-action",
       "Add personal examples for authenticity"] }

/-- The optimize_content method: invoke the llm; on success extract the
brace-delimited substring and parse it; if the invocation raised, no
substring matched, or parsing raised, return the locally computed fallback
report. -/
def optimize_content (llmResult : Except String String)
    (jsonParse : String → Option OptimizationData)
    (content topic : String) : OptimizationData :=
  match llmResult with
  | .error _ => create_fallback_optimization content topic
  | .ok text =>
      match extractBrace text with
      | none => create_fallback_optimization content topic
      | some js =>
          match jsonParse js with
          | some d => d
          | none => create_fallback_optimization content topic

/-- A regex word character, as matched after the hash: letters, digits and
the underscore. -/
def isWordChar (c : Char) : Bool :=
  c.isAlphanum || c == Char.ofNat 95

/-- The scan behind the findall over the pattern hash-then-word-characters:
at each hash with at least one following word character, take the maximal
word-character run as one match and continue after it. The fuel argument,
instantiated with the length of the text, makes the recursion structural;
every step consumes at least one character, so the fuel never runs out. -/
def findHashtagsAux : Nat → List Char → List String
  | 0, _ => []
  | _, [] => []
  | fuel + 1, c :: rest =>
      if c == Char.ofNat 35 then
        let w := rest.takeWhile isWordChar
        if w.isEmpty then findHashtagsAux fuel rest
        else String.mk (c :: w) :: findHashtagsAux fuel (rest.drop w.length)
      else findHashtagsAux fuel rest

/-- The findall over the pattern hash-then-word-characters used by
suggest_hashtags_only. -/
def findHashtags (cs : List Char) : List String :=
  findHashtagsAux cs.length cs

/-- The suggest_hashtags_only method: invoke the llm; on success collect
the hashtag-shaped tokens of the response and return the first count of
them, or the three fixed defaults when none were found; when the
invocation raised, return the five fixed defaults. -/
def suggest_hashtags_only (llmResult : Except String String)
    (count : Nat) : List String :=
  match llmResult with
  | .error _ =>
      [String.mk [Char.ofNat 35] ++ "Content",
       String.mk [Char.ofNat 35] ++ "Professional",
       String.mk [Char.ofNat 35] ++ "Growth",
       String.mk [Char.ofNat 35] ++ "Success",
       String.mk [Char.ofNat 35] ++ "Business"]
  | .ok text =>
      let hashtags := findHashtags text.data
      if !hashtags.isEmpty then hashtags.take count
      else
        [String.mk [Char.ofNat 35] ++ "Content",
         String.mk [Char.ofNat 35] ++ "Professional",
         String.mk [Char.ofNat 35] ++ "Growth"]

/-- A string of the shape the hashtag pattern matches: a hash followed by
one or more word characters. -/
def hashtagShaped (s : String) : Bool :=
  match s.data with
  | [] => false
  | c :: w => c == Char.ofNat 35 && !w.isEmpty && w.all isWordChar

/-! Concrete fixtures used by counterexamples and witnesses. -/

/-- A generation collaborator that always succeeds with the same draft. -/
def gen0 : Gen := fun _ _ _ _ => .ok "draft"

/-- A generation collaborator that succeeds on the very first generation of
a session (no feedback yet) and raises on every regeneration. -/
def genFail : Gen := fun _ _ _ fb =>
  match fb with
  | none => .ok "d0"
  | some _ => .error "llm down"

/-- The store after one create with gen0. -/
def st1W : Store := (start_ai_agent_session gen0 0 [] "s1" "t" "medium" "").1

/-- The graph state of the single session of st1W. -/
def gsW : GraphState :=
  { topic := "t", content_length := "medium", writing_style := "",
    generated_post := ["draft"], human_feedback := [], should_continue := true }

/-- The session record of st1W. -/
def sdW : SessionData :=
  { thread := .suspended gsW, current_post := "draft",
    status := "waiting_feedback", created_at := 0, last_activity := some 0 }

/-- The store after create and a terminating done submission. -/
def st2W : Store := (provide_ai_agent_feedback gen0 1 st1W "s1" "done").1

/-- The session record of st2W: as sdW but completed. -/
def sd2W : SessionData :=
  { thread := .suspended gsW, current_post := "draft",
    status := "completed", created_at := 0, last_activity := some 0 }

/-- The store after one create with genFail. -/
def st1F : Store := (start_ai_agent_session genFail 0 [] "s1" "t" "medium" "").1

/-- The graph state of the single session of st1F. -/
def gsF : GraphState :=
  { topic := "t", content_length := "medium", writing_style := "",
    generated_post := ["d0"], human_feedback := [], should_continue := true }

/-- The session record of st1F. -/
def sdF : SessionData :=
  { thread := .suspended gsF, current_post := "d0",
    status := "waiting_feedback", created_at := 0, last_activity := some 0 }

/-- A two-session store for the sweep witness: one session last active at
instant 97, one stale since instant 10. -/
def stSweepW : Store :=
  [("a", { thread := .suspended gsW, current_post := "draft",
           status := "waiting_feedback", created_at := 0, last_activity := some 97 }),
   ("b", { thread := .suspended gsW, current_post := "draft",
           status := "waiting_feedback", created_at := 0, last_activity := some 10 })]

/-! Association-list lemmas about lookup and storeSet. -/

theorem lookup_cons_self {k : String} {v : SessionData} {t : Store} :
    List.lookup k ((k, v) :: t) = some v := by
  rw [List.lookup]; simp

theorem lookup_cons_ne {a k : String} {v : SessionData} {t : Store}
    (h : (a == k) = false) : List.lookup a ((k, v) :: t) = List.lookup a t := by
  rw [List.lookup]; simp [h]

theorem lookup_mem {sid : String} {sd : SessionData} :
    ∀ {st : Store}, List.lookup sid st = some sd → (sid, sd) ∈ st := by
  intro st
  induction st with
  | nil => intro h; simp [List.lookup] at h
  | cons p t ih =>
      obtain ⟨k, v⟩ := p
      intro h
      by_cases hk : sid = k
      · subst hk
        rw [lookup_cons_self] at h
        obtain rfl : v = sd := by simpa using h
        exact List.mem_cons_self _ _
      · rw [lookup_cons_ne (by simpa using hk)] at h
        exact List.mem_cons_of_mem _ (ih h)

theorem lookup_map_update {sid : String} {sd : SessionData} :
    ∀ {st : Store}, (List.lookup sid st).isSome →
      List.lookup sid (st.map fun p => if p.1 == sid then (sid, sd) else p) = some sd := by
  intro st
  induction st with
  | nil => intro h; simp [List.lookup] at h
  | cons p t ih =>
      obtain ⟨k, v⟩ := p
      intro h
      by_cases hk : k = sid
      · subst hk
        simp only [List.map_cons]
        simp [lookup_cons_self]
      · have hk1 : (k == sid) = false := by simpa using hk
        have hk2 : (sid == k) = false := by simpa using Ne.symm hk
        rw [lookup_cons_ne hk2] at h
        simpa [List.map_cons, hk, hk1, lookup_cons_ne hk2] using ih h

theorem lookup_append_fresh {sid : String} {sd : SessionData} :
    ∀ {st : Store}, List.lookup sid st = none →
      List.lookup sid (st ++ [(sid, sd)]) = some sd := by
  intro st
  induction st with
  | nil => intro _; simp [lookup_cons_self]
  | cons p t ih =>
      obtain ⟨k, v⟩ := p
      intro h
      by_cases hk : sid = k
      · subst hk
        rw [lookup_cons_self] at h
        simp at h
      · have hk2 : (sid == k) = false := by simpa using hk
        rw [lookup_cons_ne hk2] at h
        rw [List.cons_append, lookup_cons_ne hk2]
        exact ih h

theorem lookup_storeSet_self {st : Store} {sid : String} {sd : SessionData} :
    List.lookup sid (storeSet st sid sd) = some sd := by
  unfold storeSet
  by_cases h : (List.lookup sid st).isSome
  · simp only [h, if_true]
    exact lookup_map_update h
  · simp only [h, if_false]
    exact lookup_append_fresh (Option.not_isSome_iff_eq_none.mp h)

theorem storeSet_lookup_eq_self {st : Store} {sid : String} {sd : SessionData}
    (hnd : (st.map Prod.fst).Nodup) (h : List.lookup sid st = some sd) :
    storeSet st sid sd = st := by
  have hsome : (List.lookup sid st).isSome := by rw [h]; rfl
  unfold storeSet
  simp only [hsome, if_true]
  have hmem : (sid, sd) ∈ st := lookup_mem h
  have : ∀ p ∈ st, (if p.1 == sid then (sid, sd) else p) = p := by
    intro p hp
    by_cases hk : p.1 = sid
    · have : p = (sid, sd) := by
        apply List.inj_on_of_nodup_map hnd hp hmem
        simpa using hk
      simp [this]
    · simp [hk]
  calc st.map (fun p => if p.1 == sid then (sid, sd) else p)
      = st.map id := List.map_congr_left this
    _ = st := List.map_id st

theorem mem_storeSet {p : String × SessionData} {st : Store} {sid : String}
    {sd : SessionData} (h : p ∈ storeSet st sid sd) : p = (sid, sd) ∨ p ∈ st := by
  unfold storeSet at h
  by_cases hs : (List.lookup sid st).isSome
  · simp only [hs, if_true] at h
    obtain ⟨q, hq, hfq⟩ := List.mem_map.mp h
    by_cases hk : q.1 = sid
    · left; rw [← hfq]; simp [hk]
    · right; rw [← hfq]; simpa [hk] using hq
  · simp only [hs, if_false] at h
    rcases List.mem_append.mp h with h1 | h1
    · right; exact h1
    · left; simpa using h1

/-! Reduction lemmas for the feedback endpoint, one per control path. -/

/-- The graph state reached when a session suspended at gs is resumed with
feedback f and the collaborator returns draft d: feedback appended, draft
appended, routing flag recomputed. -/
def stepState (f d : String) (gs : GraphState) : GraphState :=
  { gs with generated_post := gs.generated_post ++ [d],
            human_feedback := gs.human_feedback ++ [f],
            should_continue := pyLower f != "done" }

theorem provide_step_done (gen : Gen) (now : Int) (st : Store) (sid f : String)
    (sd : SessionData) (h : List.lookup sid st = some sd)
    (hf : pyLower f = "done") :
    provide_ai_agent_feedback gen now st sid f =
      (storeSet st sid { sd with status := "completed" },
       Except.ok (sd.current_post, "completed")) := by
  have hc : (pyLower f == "done") = true := by simp [hf]
  simp only [provide_ai_agent_feedback, h, hc, if_true]

theorem provide_step_ok (gen : Gen) (now : Int) (st : Store) (sid f d : String)
    (sd : SessionData) (gs : GraphState)
    (h : List.lookup sid st = some sd)
    (hth : sd.thread = .suspended gs)
    (hf : pyLower f ≠ "done")
    (hgen : gen gs.topic gs.content_length gs.writing_style (some f) = .ok d) :
    provide_ai_agent_feedback gen now st sid f =
      (storeSet st sid
        { sd with thread := .suspended (stepState f d gs), current_post := d,
                  last_activity := some now },
       Except.ok (d, "waiting_feedback")) := by
  have hc : (pyLower f == "done") = false := by simp [hf]
  have hsc : (pyLower f != "done") = true := by simp [hf]
  have hlast : (gs.human_feedback ++ [f]).getLast? = some f := List.getLast?_concat _
  have hd : ((gs.generated_post ++ [d]).getLastD "") = d := by
    simp [List.getLastD_concat]
  simp only [provide_ai_agent_feedback, h, hc, if_false, Bool.false_eq_true,
    resumeThread, hth, feedback_collector, content_generator, hsc, if_true,
    hlast, hgen, hd, stepState]

theorem provide_step_genfail (gen : Gen) (now : Int) (st : Store) (sid f e : String)
    (sd : SessionData) (gs : GraphState)
    (h : List.lookup sid st = some sd)
    (hth : sd.thread = .suspended gs)
    (hf : pyLower f ≠ "done")
    (hgen : gen gs.topic gs.content_length gs.writing_style (some f) = .error e) :
    provide_ai_agent_feedback gen now st sid f =
      (storeSet st sid { sd with thread := .pendingGen (feedback_collector f gs) },
       Except.error ⟨500, "Error processing feedback: " ++ e⟩) := by
  have hc : (pyLower f == "done") = false := by simp [hf]
  have hsc : (pyLower f != "done") = true := by simp [hf]
  have hlast : (gs.human_feedback ++ [f]).getLast? = some f := List.getLast?_concat _
  simp only [provide_ai_agent_feedback, h, hc, if_false, Bool.false_eq_true,
    resumeThread, hth, content_generator, feedback_collector, hsc, if_true,
    hlast, hgen]

theorem provide_step_notfound (gen : Gen) (now : Int) (st : Store) (sid f : String)
    (h : List.lookup sid st = none) :
    provide_ai_agent_feedback gen now st sid f =
      (st, Except.error ⟨500, "Error processing feedback: 404: Session not found"⟩) := by
  simp only [provide_ai_agent_feedback, h]

/-! Reduction lemmas for the start endpoint and a helper on Except. -/

theorem isOk_exists {x : Except String String} (h : x.isOk = true) :
    ∃ d, x = Except.ok d := by
  cases x with
  | ok d => exact ⟨d, rfl⟩
  | error e => simp [Except.isOk, Except.toBool] at h

theorem start_step_ok (gen : Gen) (now : Int) (st : Store)
    (sid topic len sty d0 : String)
    (hgen : gen topic len sty none = .ok d0) :
    start_ai_agent_session gen now st sid topic len sty =
      (storeSet st sid
        { thread := .suspended
            { topic := topic, content_length := len, writing_style := sty,
              generated_post := [d0], human_feedback := [],
              should_continue := true },
          current_post := d0, status := "waiting_feedback",
          created_at := now, last_activity := some now },
       .ok (sid, d0, "waiting_feedback")) := by
  simp only [start_ai_agent_session, content_generator, List.getLast?_nil, hgen,
    List.nil_append, List.getLastD_concat]
  rfl

theorem start_step_fail (gen : Gen) (now : Int) (st : Store)
    (sid topic len sty e : String)
    (hgen : gen topic len sty none = .error e) :
    start_ai_agent_session gen now st sid topic len sty =
      (st, .error ⟨500, "Error starting AI agent session: " ++ e⟩) := by
  simp only [start_ai_agent_session, content_generator, List.getLast?_nil, hgen]

/-! Claim theorems. -/

/-- C3: for every unknown session identifier the feedback endpoint fails
and leaves the store completely unmutated; but the failure reaches the
client as a 500 server error wrapping the internal 404, because the
blanket exception handler of the endpoint catches the HTTPException it
itself raised, rather than as a not-found failure. -/
theorem c3_unknown_id_wrapped_500 (gen : Gen) (now : Int) (st : Store)
    (sid f : String) (h : List.lookup sid st = none) :
    provide_ai_agent_feedback gen now st sid f =
      (st, Except.error ⟨500, "Error processing feedback: 404: Session not found"⟩) :=
  provide_step_notfound gen now st sid f h

/-- Witness for C3 at the concrete failing input: unknown id ghost on the
empty store. -/
theorem c3_unknown_id_wrapped_500_witness :
    provide_ai_agent_feedback gen0 7 [] "ghost" "hi" =
      ([], Except.error ⟨500, "Error processing feedback: 404: Session not found"⟩) :=
  c3_unknown_id_wrapped_500 gen0 7 [] "ghost" "hi" rfl

/-- C4: submitting the literal feedback done to a session awaiting feedback
performs no draft generation at all: the response carries the previously
stored draft and completed status, the stored draft afterwards still equals
the draft stored before the call, and the resumption token is untouched.
The right hand sides never mention the generation collaborator, which is
universally quantified. -/
theorem c4_done_no_generation (gen : Gen) (now : Int) (st : Store) (sid : String)
    (sd : SessionData) (h : List.lookup sid st = some sd)
    (_hw : sd.status = "waiting_feedback") :
    (provide_ai_agent_feedback gen now st sid "done").2 =
        Except.ok (sd.current_post, "completed") ∧
      sessionDraft (provide_ai_agent_feedback gen now st sid "done").1 sid =
        some sd.current_post ∧
      (List.lookup sid (provide_ai_agent_feedback gen now st sid "done").1).map
          (fun r => r.thread) = some sd.thread := by
  have hstep := provide_step_done gen now st sid "done" sd h rfl
  refine ⟨?_, ?_, ?_⟩
  · simp [hstep]
  · simp [hstep, sessionDraft, lookup_storeSet_self]
  · simp [hstep, lookup_storeSet_self]

/-- Witness for C4 on the store holding one freshly created session. -/
theorem c4_done_no_generation_witness :
    (provide_ai_agent_feedback gen0 9 st1W "s1" "done").2 =
      Except.ok ("draft", "completed") :=
  (c4_done_no_generation gen0 9 st1W "s1" sdW rfl rfl).1

/-- C5: for a session awaiting feedback, the termination test is
case-insensitive equality with done and performs no trimming: the session
ends up completed exactly when the lowercased feedback equals done, and any
other feedback, whitespace-padded done included, runs one more generation
and stores and returns the fresh draft. -/
theorem c5_termination_no_trim (gen : Gen) (now : Int) (st : Store)
    (sid f d : String) (sd : SessionData) (gs : GraphState)
    (h : List.lookup sid st = some sd)
    (hw : sd.status = "waiting_feedback")
    (hth : sd.thread = .suspended gs)
    (hgen : gen gs.topic gs.content_length gs.writing_style (some f) = .ok d) :
    ((sessionStatus (provide_ai_agent_feedback gen now st sid f).1 sid =
        some "completed") ↔ pyLower f = "done") ∧
      (pyLower f ≠ "done" →
        (provide_ai_agent_feedback gen now st sid f).2 =
            Except.ok (d, "waiting_feedback") ∧
          (List.lookup sid (provide_ai_agent_feedback gen now st sid f).1).map
              (fun r => r.thread) = some (.suspended (stepState f d gs))) := by
  by_cases hf : pyLower f = "done"
  · have hstep := provide_step_done gen now st sid f sd h hf
    constructor
    · simp [hstep, sessionStatus, lookup_storeSet_self, hf]
    · intro hne; exact absurd hf hne
  · have hstep := provide_step_ok gen now st sid f d sd gs h hth hf hgen
    constructor
    · refine iff_of_false (fun hcomp => ?_) hf
      have hss : sd.status = "completed" := by
        simpa [hstep, sessionStatus, lookup_storeSet_self] using hcomp
      rw [hw] at hss
      exact absurd hss (by decide)
    · intro _
      refine ⟨?_, ?_⟩
      · simp [hstep]
      · simp [hstep, lookup_storeSet_self]

/-- C2 counterexample: on a completed session (created, then finished with
done), a subsequent non-done feedback submission does invoke the revision
state machine and reports status waiting_feedback instead of the stored
completed status: the persisted feedback history, empty beforehand, gains
the submitted feedback. -/
theorem c2_counterexample :
    sessionStatus st2W "s1" = some "completed" ∧
      sessionHistory st2W "s1" = some ([] : List String) ∧
      (provide_ai_agent_feedback gen0 2 st2W "s1" "hello").2 =
        Except.ok ("draft", "waiting_feedback") ∧
      sessionHistory (provide_ai_agent_feedback gen0 2 st2W "s1" "hello").1 "s1" =
        some ["hello"] :=
  ⟨rfl, rfl, rfl, rfl⟩

/-- C2 amended: only the repetition of done on an already completed session
is the no-op success the specification describes: it returns the stored
draft and completed status and leaves the store unchanged, without invoking
the state machine. Feedback other than done resumes the state machine even
on a completed session. -/
theorem c2_done_on_completed_noop (gen : Gen) (now : Int) (st : Store)
    (sid : String) (sd : SessionData)
    (hnd : (st.map Prod.fst).Nodup)
    (h : List.lookup sid st = some sd)
    (hc : sd.status = "completed") :
    provide_ai_agent_feedback gen now st sid "done" =
      (st, Except.ok (sd.current_post, "completed")) := by
  have hstep := provide_step_done gen now st sid "done" sd h rfl
  rw [hstep]
  have hsd : ({ sd with status := "completed" } : SessionData) = sd := by
    cases sd
    simp_all
  rw [hsd, storeSet_lookup_eq_self hnd h]

/-- Witness for C2 amended: repeating done on the completed session of the
concrete store is a no-op success. -/
theorem c2_done_on_completed_noop_witness :
    provide_ai_agent_feedback gen0 5 st2W "s1" "done" =
      (st2W, Except.ok ("draft", "completed")) :=
  c2_done_on_completed_noop gen0 5 st2W "s1" sd2W (by decide) rfl rfl

/-- C1 counterexample: one successful submitFeedback call carrying the
terminal done leaves the persisted feedback history empty rather than of
length one: the endpoint short-circuits before the state machine runs, so
the terminal marker is never appended to the history. -/
theorem c1_counterexample :
    (provide_ai_agent_feedback gen0 1 st1W "s1" "done").2 =
        Except.ok ("draft", "completed") ∧
      sessionHistory (provide_ai_agent_feedback gen0 1 st1W "s1" "done").1 "s1" =
        some ([] : List String) :=
  ⟨rfl, rfl⟩

/-- Folding a sequence of feedback submissions for one session through the
feedback endpoint, keeping the store. -/
def runFeedbacks (gen : Gen) (now : Int) (sid : String) (st : Store)
    (fbs : List String) : Store :=
  fbs.foldl (fun s f => (provide_ai_agent_feedback gen now s sid f).1) st

theorem runFeedbacks_history (gen : Gen)
    (hgen : ∀ t l s f, (gen t l s f).isOk = true) (now : Int) (sid : String) :
    ∀ (fbs : List String), (∀ f ∈ fbs, pyLower f ≠ "done") →
      ∀ (st : Store) (sd : SessionData) (gs : GraphState),
        List.lookup sid st = some sd → sd.thread = .suspended gs →
        sessionHistory (runFeedbacks gen now sid st fbs) sid =
          some (gs.human_feedback ++ fbs) := by
  intro fbs
  induction fbs with
  | nil =>
      intro _ st sd gs h hth
      simp [runFeedbacks, sessionHistory, h, hth, threadHistory]
  | cons f fs ih =>
      intro hfbs st sd gs h hth
      have hf : pyLower f ≠ "done" := hfbs f (List.mem_cons_self _ _)
      obtain ⟨d, hd⟩ :=
        isOk_exists (hgen gs.topic gs.content_length gs.writing_style (some f))
      have hstep := provide_step_ok gen now st sid f d sd gs h hth hf hd
      have hrun : runFeedbacks gen now sid st (f :: fs) =
          runFeedbacks gen now sid (provide_ai_agent_feedback gen now st sid f).1 fs := rfl
      rw [hrun]
      simp only [hstep]
      have hih := ih (fun g hg => hfbs g (List.mem_cons_of_mem _ hg))
        (storeSet st sid
          { sd with thread := .suspended (stepState f d gs), current_post := d,
                    last_activity := some now })
        { sd with thread := .suspended (stepState f d gs), current_post := d,
                  last_activity := some now }
        (stepState f d gs) lookup_storeSet_self rfl
      rw [hih]
      simp [stepState]

/-- C1 amended: starting from a freshly created session, after N successful
submitFeedback calls each carrying non-terminal feedback the persisted
feedback history is exactly the list of those N feedback texts, so it has
length N; a terminating done call, by contrast, appends nothing (see the
counterexample). -/
theorem c1_history_length (gen : Gen)
    (hgen : ∀ t l s f, (gen t l s f).isOk = true)
    (now : Int) (st : Store) (sid topic len sty : String)
    (_hfresh : List.lookup sid st = none)
    (fbs : List String) (hfbs : ∀ f ∈ fbs, pyLower f ≠ "done") :
    sessionHistory
        (runFeedbacks gen now sid
          (start_ai_agent_session gen now st sid topic len sty).1 fbs) sid =
      some fbs ∧
    (sessionHistory
        (runFeedbacks gen now sid
          (start_ai_agent_session gen now st sid topic len sty).1 fbs) sid).map
      List.length = some fbs.length := by
  obtain ⟨d0, hd0⟩ := isOk_exists (hgen topic len sty none)
  have hstart := start_step_ok gen now st sid topic len sty d0 hd0
  have hmain : sessionHistory
      (runFeedbacks gen now sid
        (start_ai_agent_session gen now st sid topic len sty).1 fbs) sid =
      some fbs := by
    simp only [hstart]
    have := runFeedbacks_history gen hgen now sid fbs hfbs
      (storeSet st sid
        { thread := .suspended
            { topic := topic, content_length := len, writing_style := sty,
              generated_post := [d0], human_feedback := [],
              should_continue := true },
          current_post := d0, status := "waiting_feedback",
          created_at := now, last_activity := some now })
      { thread := .suspended
          { topic := topic, content_length := len, writing_style := sty,
            generated_post := [d0], human_feedback := [],
            should_continue := true },
        current_post := d0, status := "waiting_feedback",
        created_at := now, last_activity := some now }
      { topic := topic, content_length := len, writing_style := sty,
        generated_post := [d0], human_feedback := [],
        should_continue := true }
      lookup_storeSet_self rfl
    simpa using this
  exact ⟨hmain, by rw [hmain]; rfl⟩

/-- Witness for C1 amended with two non-terminal feedback submissions. -/
theorem c1_history_length_witness :
    sessionHistory (runFeedbacks gen0 0 "s1"
        (start_ai_agent_session gen0 0 [] "s1" "t" "medium" "").1 ["a", "b"]) "s1" =
      some ["a", "b"] :=
  (c1_history_length gen0 (fun _ _ _ _ => rfl) 0 [] "s1" "t" "medium" ""
    rfl ["a", "b"] (by decide)).1

/-- Witness for C5 at the whitespace-padded feedback done followed by a
space: the session does not terminate and a fresh draft is returned. -/
theorem c5_termination_no_trim_witness :
    (provide_ai_agent_feedback gen0 3 st1W "s1" "done ").2 =
      Except.ok ("draft", "waiting_feedback") :=
  (((c5_termination_no_trim gen0 3 st1W "s1" "done " "draft" sdW gsW rfl rfl rfl
    rfl).2) (by decide)).1

/-- Under distinct keys, membership of a key in the expired-id list
collected by the sweep is equivalent to the expiry of the entry itself. -/
theorem contains_filtered_ids {f : String × SessionData → Bool} {st : Store}
    (hnd : (st.map Prod.fst).Nodup) {p : String × SessionData} (hp : p ∈ st) :
    ((st.filter f).map Prod.fst).contains p.1 = f p := by
  by_cases hf : f p = true
  · rw [hf]
    have hmem : p.1 ∈ (st.filter f).map Prod.fst :=
      List.mem_map_of_mem _ (List.mem_filter.mpr ⟨hp, hf⟩)
    exact List.elem_iff.mpr hmem
  · have hfp : f p = false := by simpa using hf
    rw [hfp]
    have hnot : p.1 ∉ (st.filter f).map Prod.fst := by
      intro hmem
      obtain ⟨q, hq, hq1⟩ := List.mem_map.mp hmem
      have hqst := (List.mem_filter.mp hq).1
      have hqf := (List.mem_filter.mp hq).2
      have hqp : q = p := List.inj_on_of_nodup_map hnd hqst hp hq1
      rw [hqp] at hqf
      exact hf hqf
    exact Bool.eq_false_iff.mpr (fun hc => hnot (List.elem_iff.mp hc))

/-- C6: on a store with distinct session ids, the sweep removes exactly the
sessions whose age, measured from last_activity with created_at as the
fallback, strictly exceeds the timeout; it returns the number of sessions
removed; and it is idempotent: repeating it immediately with the same now
removes zero sessions and leaves the store unchanged. -/
theorem c6_sweep_exact (now timeout : Int) (st : Store)
    (hnd : (st.map Prod.fst).Nodup) :
    (cleanup_expired_sessions now timeout st).1 =
        st.filter (fun p => !(expired now timeout p.2)) ∧
      (cleanup_expired_sessions now timeout st).2 =
        (st.filter (fun p => expired now timeout p.2)).length ∧
      cleanup_expired_sessions now timeout
          (cleanup_expired_sessions now timeout st).1 =
        ((cleanup_expired_sessions now timeout st).1, 0) := by
  have h1 : (cleanup_expired_sessions now timeout st).1 =
      st.filter (fun p => !(expired now timeout p.2)) := by
    show st.filter
        (fun p => !(((st.filter (fun q => expired now timeout q.2)).map Prod.fst).contains p.1)) =
      st.filter (fun p => !(expired now timeout p.2))
    apply List.filter_congr
    intro p hp
    rw [contains_filtered_ids hnd hp]
  have h2 : (cleanup_expired_sessions now timeout st).2 =
      (st.filter (fun p => expired now timeout p.2)).length := by
    show ((st.filter (fun p => expired now timeout p.2)).map Prod.fst).length =
      (st.filter (fun p => expired now timeout p.2)).length
    exact List.length_map _ _
  refine ⟨h1, h2, ?_⟩
  rw [h1]
  have hnone : ∀ p ∈ st.filter (fun p => !(expired now timeout p.2)),
      expired now timeout p.2 = false := by
    intro p hp
    have := (List.mem_filter.mp hp).2
    simpa using this
  have hempty : (st.filter (fun p => !(expired now timeout p.2))).filter
      (fun p => expired now timeout p.2) = [] :=
    List.filter_eq_nil_iff.mpr (fun p hp => by simp [hnone p hp])
  simp only [cleanup_expired_sessions, hempty, List.map_nil, List.length_nil,
    Prod.mk.injEq]
  constructor
  · apply List.filter_eq_self.mpr
    intro p _
    rfl
  · trivial

/-- Witness for C6 on a concrete two-session store with one stale entry:
the repeated sweep removes nothing. -/
theorem c6_sweep_exact_witness :
    cleanup_expired_sessions 100 5 (cleanup_expired_sessions 100 5 stSweepW).1 =
      ((cleanup_expired_sessions 100 5 stSweepW).1, 0) :=
  (c6_sweep_exact 100 5 stSweepW (by decide)).2.2

/-- C7: whenever the generation collaborator raises, or returns text in
which no brace-delimited substring is found, or the found substring fails
to parse, optimize_content returns the deterministic locally computed
fallback report, whose paragraph count is the number of segments obtained
by splitting the content on literal blank lines, whose overall score is the
fixed default 75, and whose hashtags are derived from the topic words. -/
theorem c7_fallback (llmResult : Except String String)
    (jsonParse : String → Option OptimizationData) (content topic : String)
    (h : ∀ t, llmResult = Except.ok t → (extractBrace t).bind jsonParse = none) :
    optimize_content llmResult jsonParse content topic =
        create_fallback_optimization content topic ∧
      (optimize_content llmResult jsonParse content topic).paragraph_count =
        (content.splitOn "\n\n").length ∧
      (optimize_content llmResult jsonParse content topic).overall_score = 75 ∧
      (optimize_content llmResult jsonParse content topic).hashtags_suggested =
        (fallbackHashtags topic).take 5 := by
  have hmain : optimize_content llmResult jsonParse content topic =
      create_fallback_optimization content topic := by
    cases llmResult with
    | error e => rfl
    | ok t =>
        have hb := h t rfl
        cases hx : extractBrace t with
        | none => simp only [optimize_content, hx]
        | some js =>
            rw [hx] at hb
            simp only [Option.some_bind] at hb
            simp only [optimize_content, hx, hb]
  exact ⟨hmain, by rw [hmain]; rfl, by rw [hmain]; rfl, by rw [hmain]; rfl⟩

/-- Witness for C7 at a raising collaborator and a failing parse. -/
theorem c7_fallback_witness :
    optimize_content (Except.error "boom") (fun _ => none) "a\n\nb" "ai health" =
      create_fallback_optimization "a\n\nb" "ai health" :=
  (c7_fallback (Except.error "boom") (fun _ => none) "a\n\nb" "ai health"
    (fun _ ht => nomatch ht)).1

/-- C9 counterexample: with a collaborator that succeeds at session creation
and raises on the regeneration, the failing submitFeedback operation fails
as a whole, yet the persisted session state is not exactly what it was
before: the feedback history held by the resumption token, empty before the
call, has gained the submitted feedback. -/
theorem c9_counterexample :
    (provide_ai_agent_feedback genFail 1 st1F "s1" "improve").2 =
        Except.error ⟨500, "Error processing feedback: llm down"⟩ ∧
      sessionHistory st1F "s1" = some ([] : List String) ∧
      sessionHistory (provide_ai_agent_feedback genFail 1 st1F "s1" "improve").1 "s1" =
        some ["improve"] :=
  ⟨rfl, rfl, rfl⟩

/-- C9 amended: when generation fails during a feedback submission, the
operation fails as a whole and the session record of the main store keeps
its draft, status, and both timestamps; the resumption token, however, has
already advanced past the feedback append when the failure hits, so the
persisted feedback history gains the submitted feedback: the rollback is
not atomic across the token. -/
theorem c9_genfail_keeps_record_not_history (gen : Gen) (now : Int) (st : Store)
    (sid f e : String) (sd : SessionData) (gs : GraphState)
    (h : List.lookup sid st = some sd)
    (hth : sd.thread = .suspended gs)
    (hf : pyLower f ≠ "done")
    (hgen : gen gs.topic gs.content_length gs.writing_style (some f) = .error e) :
    (provide_ai_agent_feedback gen now st sid f).2 =
        Except.error ⟨500, "Error processing feedback: " ++ e⟩ ∧
      sessionDraft (provide_ai_agent_feedback gen now st sid f).1 sid =
        some sd.current_post ∧
      sessionStatus (provide_ai_agent_feedback gen now st sid f).1 sid =
        some sd.status ∧
      (List.lookup sid (provide_ai_agent_feedback gen now st sid f).1).map
          (fun r => (r.created_at, r.last_activity)) =
        some (sd.created_at, sd.last_activity) ∧
      sessionHistory (provide_ai_agent_feedback gen now st sid f).1 sid =
        some (gs.human_feedback ++ [f]) := by
  have hstep := provide_step_genfail gen now st sid f e sd gs h hth hf hgen
  refine ⟨?_, ?_, ?_, ?_, ?_⟩ <;>
    simp [hstep, sessionDraft, sessionStatus, sessionHistory, lookup_storeSet_self,
      threadHistory, feedback_collector]

/-- Witness for C9 amended at the concrete store with the failing
collaborator. -/
theorem c9_genfail_keeps_record_not_history_witness :
    sessionHistory (provide_ai_agent_feedback genFail 1 st1F "s1" "x").1 "s1" =
      some ["x"] := by
  have h := c9_genfail_keeps_record_not_history genFail 1 st1F "s1" "x" "llm down"
    sdF gsF rfl rfl (by decide) rfl
  simpa using h.2.2.2.2

/-- Every token collected by the hashtag scan is hashtag shaped: a hash
followed by one or more word characters. -/
theorem findHashtagsAux_shaped :
    ∀ (fuel : Nat) (cs : List Char),
      ∀ s ∈ findHashtagsAux fuel cs, hashtagShaped s = true := by
  intro fuel
  induction fuel with
  | zero => intro cs s hs; simp [findHashtagsAux] at hs
  | succ n ih =>
      intro cs s hs
      cases cs with
      | nil => simp [findHashtagsAux] at hs
      | cons c rest =>
          simp only [findHashtagsAux] at hs
          by_cases hc : (c == Char.ofNat 35) = true
          · rw [if_pos hc] at hs
            by_cases hw : (rest.takeWhile isWordChar).isEmpty = true
            · rw [if_pos hw] at hs
              exact ih rest s hs
            · rw [if_neg hw] at hs
              rcases List.mem_cons.mp hs with rfl | htail
              · have hwf : (rest.takeWhile isWordChar).isEmpty = false := by
                  simpa using hw
                have hall : (rest.takeWhile isWordChar).all isWordChar = true :=
                  List.all_eq_true.mpr (fun x hx => List.mem_takeWhile_imp hx)
                simp [hashtagShaped, hc, hwf, hall]
              · exact ih (rest.drop (rest.takeWhile isWordChar).length) s htail
          · rw [if_neg hc] at hs
            exact ih rest s hs

/-- C10 counterexample: with requested count zero and a response containing
one hashtag token, the hashtags-only operation returns the empty list,
refuting the claim that it never returns an empty list for every requested
count. -/
theorem c10_counterexample :
    suggest_hashtags_only (Except.ok (String.mk [Char.ofNat 35, 'A'])) 0 =
      ([] : List String) := rfl

/-- C10 amended: for every requested count of at least one, the hashtags
only operation never raises and never returns an empty list, every returned
string is hashtag shaped, and the three regimes hold: at most count found
tokens when the response contains some, the three fixed defaults when it
contains none, and the five fixed defaults when the collaborator raised. -/
theorem c10_hashtags_nonempty_shaped (llmResult : Except String String)
    (count : Nat) (hc : 1 ≤ count) :
    suggest_hashtags_only llmResult count ≠ [] ∧
      (∀ s ∈ suggest_hashtags_only llmResult count, hashtagShaped s = true) ∧
      (∀ t, llmResult = Except.ok t →
        (findHashtags t.data ≠ [] →
            suggest_hashtags_only llmResult count = (findHashtags t.data).take count) ∧
          (findHashtags t.data = [] →
            suggest_hashtags_only llmResult count =
              [String.mk [Char.ofNat 35] ++ "Content",
               String.mk [Char.ofNat 35] ++ "Professional",
               String.mk [Char.ofNat 35] ++ "Growth"])) ∧
      (∀ e, llmResult = Except.error e →
        suggest_hashtags_only llmResult count =
          [String.mk [Char.ofNat 35] ++ "Content",
           String.mk [Char.ofNat 35] ++ "Professional",
           String.mk [Char.ofNat 35] ++ "Growth",
           String.mk [Char.ofNat 35] ++ "Success",
           String.mk [Char.ofNat 35] ++ "Business"]) := by
  cases llmResult with
  | error e =>
      refine ⟨by simp [suggest_hashtags_only], ?_, ?_, ?_⟩
      · intro s hs
        simp [suggest_hashtags_only] at hs
        rcases hs with rfl | rfl | rfl | rfl | rfl <;> decide
      · intro t ht; exact nomatch ht
      · intro e' _; rfl
  | ok t =>
      by_cases hft : findHashtags t.data = []
      · have hres : suggest_hashtags_only (Except.ok t) count =
            [String.mk [Char.ofNat 35] ++ "Content",
             String.mk [Char.ofNat 35] ++ "Professional",
             String.mk [Char.ofNat 35] ++ "Growth"] := by
          simp [suggest_hashtags_only, hft]
        refine ⟨by simp [hres], ?_, ?_, ?_⟩
        · intro s hs
          rw [hres] at hs
          simp at hs
          rcases hs with rfl | rfl | rfl <;> decide
        · intro t' ht'
          injection ht' with hteq
          subst hteq
          exact ⟨fun hne => absurd hft hne, fun _ => hres⟩
        · intro e' ht'; exact nomatch ht'
      · obtain ⟨a, as, hl⟩ : ∃ a as, findHashtags t.data = a :: as := by
          cases hx : findHashtags t.data with
          | nil => exact absurd hx hft
          | cons a as => exact ⟨a, as, rfl⟩
        have hres : suggest_hashtags_only (Except.ok t) count =
            (findHashtags t.data).take count := by
          simp [suggest_hashtags_only, hl]
        refine ⟨?_, ?_, ?_, ?_⟩
        · rw [hres, hl]
          cases count with
          | zero => exact absurd hc (by decide)
          | succ m => simp
        · intro s hs
          rw [hres] at hs
          have hmem := List.take_subset _ _ hs
          exact findHashtagsAux_shaped t.data.length t.data s hmem
        · intro t' ht'
          injection ht' with hteq
          subst hteq
          exact ⟨fun _ => hres, fun hnil => absurd hnil hft⟩
        · intro e' ht'; exact nomatch ht'

/-- Witness for C10 amended at count eight and a response containing one
hashtag token. -/
theorem c10_hashtags_nonempty_shaped_witness :
    suggest_hashtags_only (Except.ok (String.mk [Char.ofNat 35, 'A', 'I'])) 8 ≠ [] :=
  (c10_hashtags_nonempty_shaped (Except.ok (String.mk [Char.ofNat 35, 'A', 'I'])) 8
    (by decide)).1

/-- With non-terminal feedback, resuming a live thread never runs the graph
to its finish point: the only route to content_finalizer is the terminal
comparison inside feedback_collector. -/
theorem resumeThread_not_ended {gen : Gen} {f : String} (hf : pyLower f ≠ "done")
    {ts : ThreadState} (hlive : hasLiveToken ts = true) (gs2 : GraphState) :
    resumeThread gen f ts ≠ .ended gs2 := by
  cases ts with
  | suspended gs =>
      have hsc : (feedback_collector f gs).should_continue = true := by
        simp [feedback_collector, hf]
      simp only [resumeThread, hsc, if_true]
      cases hx : content_generator gen (feedback_collector f gs) with
      | ok gs3 => simp
      | error e => simp
  | pendingGen gs =>
      simp only [resumeThread]
      cases hx : content_generator gen gs with
      | ok gs3 => simp [hx]
      | error e => simp [hx]
  | finished gs => simp [hasLiveToken] at hlive

/-- C8 counterexample: in the reachable store obtained by a create followed
by the terminating done, the completed session still holds a live
resumption token: completed status does not coincide with a discarded
token. -/
theorem c8_counterexample :
    (List.lookup "s1" st2W).map (fun sd => (sd.status, hasLiveToken sd.thread)) =
      some ("completed", true) := rfl

/-- C8 amended: every session in every reachable store holds a live
resumption token, whatever its status: the code never discards a token,
not even when the session is completed. So no reachable session is
waiting_feedback and token-absent, while the claimed direction that
completed implies a discarded token fails (see the counterexample). -/
theorem c8_live_token (gen : Gen) (st : Store) (h : Reachable gen st) :
    ∀ p ∈ st, hasLiveToken p.2.thread = true := by
  induction h with
  | empty => intro p hp; simp at hp
  | create now sid topic len sty hst ih =>
      intro p hp
      rename_i stPrev
      cases hx : gen topic len sty none with
      | error e =>
          rw [start_step_fail gen now stPrev sid topic len sty e hx] at hp
          exact ih p hp
      | ok d =>
          rw [start_step_ok gen now stPrev sid topic len sty d hx] at hp
          rcases mem_storeSet hp with rfl | hmem
          · rfl
          · exact ih p hmem
  | feedback now sid fb hst ih =>
      intro p hp
      rename_i stPrev
      cases hl : List.lookup sid stPrev with
      | none =>
          rw [provide_step_notfound gen now stPrev sid fb hl] at hp
          exact ih p hp
      | some sd =>
          by_cases hdone : pyLower fb = "done"
          · rw [provide_step_done gen now stPrev sid fb sd hl hdone] at hp
            rcases mem_storeSet hp with rfl | hmem
            · exact ih (sid, sd) (lookup_mem hl)
            · exact ih p hmem
          · have hlive : hasLiveToken sd.thread = true := ih (sid, sd) (lookup_mem hl)
            have hc : (pyLower fb == "done") = false := by simp [hdone]
            cases hres : resumeThread gen fb sd.thread with
            | interrupted gs2 =>
                have hstep : provide_ai_agent_feedback gen now stPrev sid fb =
                    (storeSet stPrev sid
                      { sd with thread := .suspended gs2,
                                current_post := gs2.generated_post.getLastD "",
                                last_activity := some now },
                     Except.ok (gs2.generated_post.getLastD "", "waiting_feedback")) := by
                  simp only [provide_ai_agent_feedback, hl, hc, Bool.false_eq_true,
                    if_false, hres]
                rw [hstep] at hp
                rcases mem_storeSet hp with rfl | hmem
                · rfl
                · exact ih p hmem
            | ended gs2 => exact absurd hres (resumeThread_not_ended hdone hlive gs2)
            | genFailed gs1 e =>
                have hstep : provide_ai_agent_feedback gen now stPrev sid fb =
                    (storeSet stPrev sid { sd with thread := .pendingGen gs1 },
                     Except.error ⟨500, "Error processing feedback: " ++ e⟩) := by
                  simp only [provide_ai_agent_feedback, hl, hc, Bool.false_eq_true,
                    if_false, hres]
                rw [hstep] at hp
                rcases mem_storeSet hp with rfl | hmem
                · rfl
                · exact ih p hmem
  | deleteSession sid hst ih =>
      intro p hp
      rename_i stPrev
      by_cases hs : (List.lookup sid stPrev).isSome = true
      · simp only [delete_ai_agent_session, hs, if_true] at hp
        exact ih p (List.mem_filter.mp hp).1
      · have hs' : (List.lookup sid stPrev).isSome = false := Bool.eq_false_iff.mpr hs
        simp only [delete_ai_agent_session, hs', Bool.false_eq_true, if_false] at hp
        exact ih p hp
  | sweep now timeout hst ih =>
      intro p hp
      rename_i stPrev
      have hp' : p ∈ stPrev.filter
          (fun q => !(((stPrev.filter (fun r => expired now timeout r.2)).map
            Prod.fst).contains q.1)) := hp
      exact ih p (List.mem_filter.mp hp').1

/-- Witness for C8 amended: the completed session of the concrete reachable
store holds a live token. -/
theorem c8_live_token_witness :
    hasLiveToken sd2W.thread = true :=
  c8_live_token gen0 st2W
    (Reachable.feedback 1 "s1" "done"
      (Reachable.create 0 "s1" "t" "medium" "" Reachable.empty))
    ("s1", sd2W) (by decide)

end ContentLoop
